import Mathlib

/-!
Verification of the bootstrap and restore orchestration of the
cloudnative-pg instance manager, shallowly embedded in Lean 4.

The embedding follows `pkg/management/postgres/initdb.go` and
`internal/cmd/manager/instance/restore/cmd.go`.  External effects
(the filesystem, the `initdb` program, the engine process and the SQL
connection) are represented by explicit oracles or by a pure
filesystem map, so every definition is executable.
-/

deriving instance DecidableEq for Except

namespace CNPG

/-- Errors are modelled structurally: `msg` is a `fmt.Errorf` message and
`wrap` is `errors.Wrap` (a context string around a cause). -/
inductive GoError
  | msg (s : String)
  | wrap (context : String) (cause : GoError)
deriving Repr, DecidableEq

/-- Embedding of the `InitInfo` struct of `initdb.go`: all the information
needed to bootstrap a new PostgreSQL instance. -/
structure InitInfo where
  PgData : String
  PasswordFile : String
  ApplicationDatabase : String
  ApplicationUser : String
  ApplicationPasswordFile : String
  HBARulesFile : String
  PostgreSQLConfigFile : String
  ParentNode : String
  ClusterName : String
deriving Repr, DecidableEq

/-- Embedding of `InitInfo.VerifyConfiguration`.  `fileExists` is the
oracle for `fileutils.FileExists`, which can itself fail (first
component of each Go multi-return).  The error messages reproduce the
source's `fmt.Errorf` formats, including which field each message
interpolates. -/
def VerifyConfiguration (info : InitInfo)
    (fileExists : String → Except GoError Bool) : Except GoError Unit := do
  let passwordFileExists ← fileExists info.PasswordFile
  if !passwordFileExists then
    throw (GoError.msg ("superuser password file doesn't exist (" ++ info.PasswordFile ++ ")"))
  let applicationPasswordFileExists ← fileExists info.ApplicationPasswordFile
  if !applicationPasswordFileExists then
    throw (GoError.msg ("application user's password file doesn't exist (" ++ info.PasswordFile ++ ")"))
  let pgdataExists ← fileExists info.PgData
  if pgdataExists then
    throw (GoError.msg "PGData directories already exist")
  if info.HBARulesFile.length ≠ 0 then
    let hbaRulesFileExists ← fileExists info.HBARulesFile
    if !hbaRulesFileExists then
      throw (GoError.msg ("hba rules file doesn't exist (" ++ info.HBARulesFile ++ ")"))
  if info.PostgreSQLConfigFile.length ≠ 0 then
    let postgresConfigFileExists ← fileExists info.PostgreSQLConfigFile
    if !postgresConfigFileExists then
      throw (GoError.msg ("postgresql config file doesn't exist (" ++ info.HBARulesFile ++ ")"))
  if info.ApplicationUser.length = 0 then
    throw (GoError.msg "the name of the application user is empty")
  if info.ApplicationDatabase.length = 0 then
    throw (GoError.msg "the name of the application database is empty")
  return ()

/-- An infallible `FileExists` oracle built from a plain existence predicate. -/
def okOracle (fs : String → Bool) : String → Except GoError Bool :=
  fun p => .ok (fs p)

/-- The seven validation rules of `VerifyConfiguration`, named. -/
inductive Rule
  | superuserPasswordFile
  | applicationPasswordFile
  | pgDataAbsent
  | hbaRulesFile
  | postgresConfigFile
  | applicationUserNonEmpty
  | applicationDatabaseNonEmpty
deriving Repr, DecidableEq

/-- Whether a rule is satisfied by a request, given an existence predicate. -/
def ruleHolds (info : InitInfo) (fs : String → Bool) : Rule → Bool
  | .superuserPasswordFile => fs info.PasswordFile
  | .applicationPasswordFile => fs info.ApplicationPasswordFile
  | .pgDataAbsent => !fs info.PgData
  | .hbaRulesFile => decide (info.HBARulesFile.length = 0) || fs info.HBARulesFile
  | .postgresConfigFile =>
      decide (info.PostgreSQLConfigFile.length = 0) || fs info.PostgreSQLConfigFile
  | .applicationUserNonEmpty => decide (info.ApplicationUser.length ≠ 0)
  | .applicationDatabaseNonEmpty => decide (info.ApplicationDatabase.length ≠ 0)

/-- The order in which the specification lists the seven checks. -/
def checkOrder : List Rule :=
  [.superuserPasswordFile, .applicationPasswordFile, .pgDataAbsent,
   .hbaRulesFile, .postgresConfigFile,
   .applicationUserNonEmpty, .applicationDatabaseNonEmpty]

/-- The first violated rule in specification order, if any. -/
def firstViolatedRule (info : InitInfo) (fs : String → Bool) : Option Rule :=
  checkOrder.find? (fun r => !ruleHolds info fs r)

/-- The error the source reports for each violated rule (reproducing which
field each message interpolates). -/
def ruleError (info : InitInfo) : Rule → GoError
  | .superuserPasswordFile =>
      .msg ("superuser password file doesn't exist (" ++ info.PasswordFile ++ ")")
  | .applicationPasswordFile =>
      .msg ("application user's password file doesn't exist (" ++ info.PasswordFile ++ ")")
  | .pgDataAbsent => .msg "PGData directories already exist"
  | .hbaRulesFile =>
      .msg ("hba rules file doesn't exist (" ++ info.HBARulesFile ++ ")")
  | .postgresConfigFile =>
      .msg ("postgresql config file doesn't exist (" ++ info.HBARulesFile ++ ")")
  | .applicationUserNonEmpty => .msg "the name of the application user is empty"
  | .applicationDatabaseNonEmpty => .msg "the name of the application database is empty"

/-- A pure filesystem: a map from path to content (`none` = no such file). -/
def FS := String → Option String

/-- `path.Join` of a directory and a simple file name. -/
def pathJoin (a b : String) : String := a ++ "/" ++ b

/-- Point update of a filesystem map. -/
def writeFS (fs : FS) (p c : String) : FS :=
  fun q => if q = p then some c else fs q

/-- Embedding of `fileutils.AppendStringToFile`: append a string to the
target file (created empty if missing). -/
def AppendStringToFile (fs : FS) (target s : String) : FS :=
  writeFS fs target (((fs target).getD "") ++ s)

/-- Embedding of `fileutils.AppendFile`: append the content of `source`
to `target`; fails when the source file does not exist. -/
def AppendFile (fs : FS) (target source : String) : Except GoError FS :=
  match fs source with
  | none => .error (.msg ("open " ++ source ++ ": no such file or directory"))
  | some content => .ok (AppendStringToFile fs target content)

/-- Embedding of `fileutils.ReadFile`. -/
def ReadFileFS (fs : FS) (p : String) : Except GoError String :=
  match fs p with
  | none => .error (.msg ("open " ++ p ++ ": no such file or directory"))
  | some content => .ok content

/-- The configuration stanza `CreateDataDirectory` unconditionally appends:
it enables archiving and points `archive_command` at the operator's own
executable with the `wal-archive` subcommand and the `%p` placeholder. -/
def archiveStanza : String :=
  "archive_mode = on\narchive_command = '/controller/manager wal-archive %p'"

/-- Embedding of `InitInfo.CreateDataDirectory`.  The external `initdb`
program is an oracle: `initdbResult` is either its failure or the
filesystem state after it succeeds (which also contains the request's
input files).  On success the optional HBA rules and extra configuration
are appended, and the archiving stanza is always appended last. -/
def CreateDataDirectory (info : InitInfo)
    (initdbResult : Except GoError FS) : Except GoError FS :=
  match initdbResult with
  | .error e => .error (.wrap "Error while creating the PostgreSQL instance" e)
  | .ok fs =>
    let afterHba : Except GoError FS :=
      if info.HBARulesFile.length ≠ 0 then
        match AppendFile fs (pathJoin info.PgData "pg_hba.conf") info.HBARulesFile with
        | .error e => .error (.wrap "appending to pg_hba.conf file resulted in an error" e)
        | .ok fs1 => .ok fs1
      else .ok fs
    match afterHba with
    | .error e => .error e
    | .ok fs1 =>
      let afterConfig : Except GoError FS :=
        if info.PostgreSQLConfigFile.length ≠ 0 then
          match AppendFile fs1 (pathJoin info.PgData "postgresql.conf") info.PostgreSQLConfigFile with
          | .error e => .error (.wrap "appending to postgresql.conf file resulted in an error" e)
          | .ok fs2 => .ok fs2
        else .ok fs1
      match afterConfig with
      | .error e => .error e
      | .ok fs2 =>
        .ok (AppendStringToFile fs2 (pathJoin info.PgData "postgresql.conf") archiveStanza)

/-- `strings.Replace(s, old, rep, -1)` for a single-character `old`
(the only shape lib/pq's quoting functions use). -/
def replaceAllChar (s : String) (old : Char) (rep : String) : String :=
  ⟨(s.data.map (fun ch => if ch = old then rep.data else [ch])).flatten⟩

/-- Embedding of `pq.QuoteIdentifier` from lib/pq: truncate at the first
NUL rune, double every double quote, and wrap in double quotes. -/
def QuoteIdentifier (name : String) : String :=
  let truncated : String := ⟨name.data.takeWhile (fun c => c ≠ Char.ofNat 0)⟩
  "\"" ++ replaceAllChar truncated '"' "\"\"" ++ "\""

/-- Embedding of `pq.QuoteLiteral` from lib/pq: double every single
quote; if a backslash is present, double the backslashes and use the
`E''` form, otherwise wrap in plain single quotes. -/
def QuoteLiteral (literal : String) : String :=
  let doubled := replaceAllChar literal '\'' "''"
  if doubled.data.contains '\\' then
    " E'" ++ replaceAllChar doubled '\\' "\\\\" ++ "'"
  else
    "'" ++ doubled ++ "'"

/-- The first SQL statement of `ConfigureApplicationEnvironment`. -/
def appStmt1 (info : InitInfo) : String :=
  "CREATE USER " ++ QuoteIdentifier info.ApplicationUser

/-- The second SQL statement of `ConfigureApplicationEnvironment`, given
the password read from the application password file. -/
def appStmt2 (info : InitInfo) (pw : String) : String :=
  "ALTER USER " ++ QuoteIdentifier info.ApplicationUser
    ++ " PASSWORD " ++ QuoteLiteral pw

/-- The third SQL statement of `ConfigureApplicationEnvironment`. -/
def appStmt3 (info : InitInfo) : String :=
  "CREATE DATABASE " ++ QuoteIdentifier info.ApplicationDatabase
    ++ " OWNER " ++ QuoteIdentifier info.ApplicationUser

/-- The fourth SQL statement of `ConfigureApplicationEnvironment`.  The
source quotes the cluster name with `pq.QuoteIdentifier`. -/
def appStmt4 (info : InitInfo) : String :=
  "ALTER SYSTEM SET cluster_name TO " ++ QuoteIdentifier info.ClusterName

/-- Embedding of `InitInfo.ConfigureApplicationEnvironment`.  `db.Exec`
is the oracle `execRes`; the result records the statements actually
issued (in order) together with the Go return value.  A statement that
fails is still issued, and aborts the rest. -/
def ConfigureApplicationEnvironment (info : InitInfo) (fs : FS)
    (execRes : String → Except GoError Unit) : List String × Except GoError Unit :=
  match execRes (appStmt1 info) with
  | .error e => ([appStmt1 info], .error e)
  | .ok _ =>
    match ReadFileFS fs info.ApplicationPasswordFile with
    | .error e => ([appStmt1 info], .error e)
    | .ok applicationPassword =>
      match execRes (appStmt2 info applicationPassword) with
      | .error e => ([appStmt1 info, appStmt2 info applicationPassword], .error e)
      | .ok _ =>
        match execRes (appStmt3 info) with
        | .error e =>
          ([appStmt1 info, appStmt2 info applicationPassword, appStmt3 info], .error e)
        | .ok _ =>
          match execRes (appStmt4 info) with
          | .error e =>
            ([appStmt1 info, appStmt2 info applicationPassword, appStmt3 info,
              appStmt4 info], .error e)
          | .ok _ =>
            ([appStmt1 info, appStmt2 info applicationPassword, appStmt3 info,
              appStmt4 info], .ok ())

/-- The `primary_conninfo` connection string `ConfigureReplica` builds:
the parent node as host and the fixed system database `postgres`. -/
def primaryConnInfo (info : InitInfo) : String :=
  "host=" ++ info.ParentNode ++ " user=postgres dbname=" ++ "postgres"

/-- The first SQL statement of `ConfigureReplica`. -/
def replicaStmt1 (info : InitInfo) : String :=
  "ALTER SYSTEM SET primary_conninfo TO " ++ QuoteLiteral (primaryConnInfo info)

/-- The second SQL statement of `ConfigureReplica`. -/
def replicaStmt2 : String :=
  "ALTER SYSTEM SET recovery_target_timeline TO 'latest'"

/-- Embedding of `InitInfo.ConfigureReplica`; like the application
environment configurator, it returns the statements issued and the Go
return value. -/
def ConfigureReplica (info : InitInfo)
    (execRes : String → Except GoError Unit) : List String × Except GoError Unit :=
  match execRes (replicaStmt1 info) with
  | .error e => ([replicaStmt1 info], .error e)
  | .ok _ =>
    match execRes replicaStmt2 with
    | .error e => ([replicaStmt1 info, replicaStmt2], .error e)
    | .ok _ => ([replicaStmt1 info, replicaStmt2], .ok ())

/-- The stages `Bootstrap` may reach, in the order it attempts them. -/
inductive Stage
  | createDataDirectory
  | detectMajorVersion
  | startInstance
  | getSuperUserDB
  | configureApplicationEnvironment
  | configureReplica
deriving Repr, DecidableEq

/-- The effect environment of one `Bootstrap` run.  `initdbResult` is the
external `initdb` program; the remaining fields are collaborators whose
code is outside `initdb.go`: `postgres.GetMajorVersion`,
`Instance.WithActiveInstance` startup and `Instance.GetSuperUserDB`
(the SQL handle is abstracted to `Unit`; its statement outcomes are
`execRes`). -/
structure BootstrapEnv where
  initdbResult : Except GoError FS
  majorVersionResult : Except GoError Nat
  startInstanceResult : Except GoError Unit
  superUserDBResult : Except GoError Unit
  execRes : String → Except GoError Unit

/-- Embedding of `InitInfo.Bootstrap`.  Returns the list of stages the
run attempted, in order, together with the Go return value.

Collaborators not under the embedded sources are modelled from the spec:
`GetMajorVersion` is an oracle returning the engine major version or an
error, and `WithActiveInstance` starts the transient instance (a startup
failure returns the startup error without invoking the callback) and
otherwise propagates the callback's result.

The error handling reproduces the source exactly: a `GetMajorVersion`
failure, a `GetSuperUserDB` failure and a
`ConfigureApplicationEnvironment` failure each make `Bootstrap` return
`nil` (`.ok ()`), as written in the source. -/
def Bootstrap (info : InitInfo) (env : BootstrapEnv) :
    List Stage × Except GoError Unit :=
  match CreateDataDirectory info env.initdbResult with
  | .error e => ([.createDataDirectory], .error e)
  | .ok fs =>
    match env.majorVersionResult with
    | .error _ => ([.createDataDirectory, .detectMajorVersion], .ok ())
    | .ok majorVersion =>
      match env.startInstanceResult with
      | .error e =>
        ([.createDataDirectory, .detectMajorVersion, .startInstance], .error e)
      | .ok _ =>
        match env.superUserDBResult with
        | .error _ =>
          ([.createDataDirectory, .detectMajorVersion, .startInstance,
            .getSuperUserDB], .ok ())
        | .ok _ =>
          match (ConfigureApplicationEnvironment info fs env.execRes).2 with
          | .error _ =>
            ([.createDataDirectory, .detectMajorVersion, .startInstance,
              .getSuperUserDB, .configureApplicationEnvironment], .ok ())
          | .ok _ =>
            if majorVersion ≥ 12 then
              ([.createDataDirectory, .detectMajorVersion, .startInstance,
                .getSuperUserDB, .configureApplicationEnvironment,
                .configureReplica],
               (ConfigureReplica info env.execRes).2)
            else
              ([.createDataDirectory, .detectMajorVersion, .startInstance,
                .getSuperUserDB, .configureApplicationEnvironment], .ok ())

namespace Restore

/-- Modelled from the spec: the remote-restore collaborator's
backup-restore error (`barmanCommand.CloudRestoreError`), queryable for
retriability; its implementation is not under the embedded sources. -/
structure CloudRestoreError where
  retriable : Bool
deriving Repr, DecidableEq

/-- The failures the restore path can surface: either a backup-restore
failure of the collaborator, or any other error (identified by its
message). -/
inductive RestoreError
  | cloudRestore (e : CloudRestoreError)
  | other (s : String)
deriving Repr, DecidableEq

/-- `errors.As(err, &barmanError)` over the closed error type: extracts
the `CloudRestoreError` when the error is one. -/
def asCloudRestoreError : RestoreError → Option CloudRestoreError
  | .cloudRestore e => some e
  | .other _ => none

/-- The outcome of the `fileutils.RemoveDirectory` call:
success, a does-not-exist error, or any other failure. -/
inductive RemoveOutcome
  | removed
  | notExist
  | failed (s : String)
deriving Repr, DecidableEq

/-- What `cleanupDataDirectoryIfNeeded` did to the data directory. -/
inductive CleanupAction
  | skipped
  | removed
  | missingIgnored
  | removalErrorLogged (s : String)
deriving Repr, DecidableEq

/-- Embedding of `cleanupDataDirectoryIfNeeded`: the directory is removed
only when the restore error is a retriable `CloudRestoreError`; a
missing directory during removal is ignored, any other removal failure
is only logged.  The function returns nothing in Go; here its effect is
reported as a `CleanupAction`. -/
def cleanupDataDirectoryIfNeeded (restoreError : RestoreError)
    (removeOutcome : RemoveOutcome) : CleanupAction :=
  match asCloudRestoreError restoreError with
  | none => .skipped
  | some barmanError =>
    if !barmanError.retriable then .skipped
    else
      match removeOutcome with
      | .removed => .removed
      | .notExist => .missingIgnored
      | .failed s => .removalErrorLogged s

/-- The observable outcome of one `restoreSubCommand` run. -/
structure RestoreRun where
  returned : Except RestoreError Unit
  cleanup : CleanupAction
deriving Repr

/-- Embedding of `restoreSubCommand`.  `checkResult` is the outcome of
`info.CheckTargetDataDirectory` and `restoreOutcome` the outcome of
`info.Restore`, both collaborators outside this file's sources;
`removeOutcome` is the oracle for `fileutils.RemoveDirectory`. -/
def restoreSubCommand (checkResult restoreOutcome : Except RestoreError Unit)
    (removeOutcome : RemoveOutcome) : RestoreRun :=
  match checkResult with
  | .error e => ⟨.error e, .skipped⟩
  | .ok _ =>
    match restoreOutcome with
    | .error e => ⟨.error e, cleanupDataDirectoryIfNeeded e removeOutcome⟩
    | .ok _ => ⟨.ok (), .skipped⟩

end Restore

/-- A well-formed demonstration request with no optional files. -/
def demoInfo : InitInfo :=
  ⟨"/pgdata", "/su-pw", "appdb", "app", "/app-pw", "", "", "parent", "c"⟩

/-- A demonstration request that also supplies the optional HBA-rules and
extra-configuration files. -/
def demoInfoOpt : InitInfo :=
  ⟨"/pgdata", "/su-pw", "appdb", "app", "/app-pw", "/hba", "/conf", "parent", "c"⟩

/-- A demonstration filesystem as left by a successful `initdb`. -/
def demoFS : FS := fun p =>
  if p = "/su-pw" then some "supw" else
  if p = "/app-pw" then some "secret" else
  if p = "/hba" then some "hostssl all all all cert\n" else
  if p = "/conf" then some "max_connections = 42\n" else
  if p = pathJoin "/pgdata" "postgresql.conf" then some "shared_buffers = 128MB\n" else
  if p = pathJoin "/pgdata" "pg_hba.conf" then some "local all all trust\n" else none

/-- The existence predicate of `demoFS`. -/
def demoExists : String → Bool := fun p => (demoFS p).isSome

/-- A SQL oracle on which every statement succeeds. -/
def allOk : String → Except GoError Unit := fun _ => .ok ()

/-- The filesystem after `CreateDataDirectory demoInfo (.ok demoFS)`. -/
def demoCreatedFS : FS :=
  AppendStringToFile demoFS (pathJoin "/pgdata" "postgresql.conf") archiveStanza

/-- Environment in which every collaborator succeeds, engine version 13. -/
def demoEnv : BootstrapEnv := ⟨.ok demoFS, .ok 13, .ok (), .ok (), allOk⟩

/-- Environment in which obtaining the superuser SQL handle fails. -/
def superUserFailEnv : BootstrapEnv :=
  ⟨.ok demoFS, .ok 13, .ok (), .error (.msg "connection refused"), allOk⟩

/-- Environment with engine version 12 in which obtaining the superuser
SQL handle fails. -/
def superUserFailEnv12 : BootstrapEnv :=
  ⟨.ok demoFS, .ok 12, .ok (), .error (.msg "connection refused"), allOk⟩

/-- A SQL oracle on which the first application statement fails. -/
def failCreateUserExec : String → Except GoError Unit :=
  fun s => if s = appStmt1 demoInfo then .error (.msg "role already exists") else .ok ()

/-- Environment in which configuring the application environment fails. -/
def appEnvFailEnv : BootstrapEnv :=
  ⟨.ok demoFS, .ok 13, .ok (), .ok (), failCreateUserExec⟩

/-- Environment in which major-version detection fails. -/
def versionFailEnv : BootstrapEnv :=
  ⟨.ok demoFS, .error (.msg "Missing PG_VERSION file"), .ok (), .ok (), allOk⟩

/-- A request `VerifyConfiguration` rejects: empty application user. -/
def invalidInfo : InitInfo :=
  ⟨"/pgdata", "/su-pw", "appdb", "", "/app-pw", "", "", "parent", "c"⟩

/-- Helper: within one data directory, the access-control file and the
configuration file have distinct paths. -/
theorem pathJoin_hba_ne_conf (d : String) :
    pathJoin d "pg_hba.conf" ≠ pathJoin d "postgresql.conf" := by
  intro h
  have h2 := congrArg String.length h
  have e0 : ("/").length = 1 := rfl
  have e1 : ("pg_hba.conf").length = 11 := rfl
  have e2 : ("postgresql.conf").length = 15 := rfl
  simp only [pathJoin, String.length_append, e0, e1, e2] at h2
  omega

/-- C3: with a working filesystem oracle, `VerifyConfiguration` returns the
error of the first rule violated in the specification's order (superuser
password file, application password file, data directory absent, optional
HBA file, optional extra-configuration file, application user non-empty,
application database non-empty) and succeeds exactly when every rule
holds. -/
theorem c3_verify_configuration_first_violation (info : InitInfo) (fs : String → Bool) :
    VerifyConfiguration info (okOracle fs) =
      (match firstViolatedRule info fs with
       | none => .ok ()
       | some r => .error (ruleError info r)) := by
  simp only [VerifyConfiguration, okOracle, firstViolatedRule, checkOrder, List.find?]
  by_cases h1 : fs info.PasswordFile <;>
  by_cases h2 : fs info.ApplicationPasswordFile <;>
  by_cases h3 : fs info.PgData <;>
  by_cases h4 : info.HBARulesFile.length = 0 <;>
  by_cases h5 : fs info.HBARulesFile <;>
  by_cases h6 : info.PostgreSQLConfigFile.length = 0 <;>
  by_cases h7 : fs info.PostgreSQLConfigFile <;>
  by_cases h8 : info.ApplicationUser.length = 0 <;>
  by_cases h9 : info.ApplicationDatabase.length = 0 <;>
  simp [h1, h2, h3, h4, h5, h6, h7, h8, h9, ruleHolds, ruleError, bind, Except.bind,
    pure, Except.pure]

/-- C10: when `VerifyConfiguration` rejects a request because the
application user's password file is missing, its message interpolates the
superuser password file's path; when it rejects because the extra
PostgreSQL configuration file is missing, its message interpolates the
HBA-rules file's path. -/
theorem c10_error_messages_report_wrong_paths (info : InitInfo) (fs : String → Bool) :
    (fs info.PasswordFile = true → fs info.ApplicationPasswordFile = false →
      VerifyConfiguration info (okOracle fs) =
        .error (.msg ("application user's password file doesn't exist ("
          ++ info.PasswordFile ++ ")"))) ∧
    (fs info.PasswordFile = true → fs info.ApplicationPasswordFile = true →
      fs info.PgData = false →
      (info.HBARulesFile.length = 0 ∨ fs info.HBARulesFile = true) →
      info.PostgreSQLConfigFile.length ≠ 0 → fs info.PostgreSQLConfigFile = false →
      VerifyConfiguration info (okOracle fs) =
        .error (.msg ("postgresql config file doesn't exist ("
          ++ info.HBARulesFile ++ ")"))) := by
  constructor
  · intro h1 h2
    simp [VerifyConfiguration, okOracle, h1, h2, bind, Except.bind, pure, Except.pure]
  · intro h1 h2 h3 h4 h5 h6
    rcases h4 with h4 | h4 <;>
      simp [VerifyConfiguration, okOracle, h1, h2, h3, h4, h5, h6, bind, Except.bind,
        pure, Except.pure]

/-- Witness for C10 at concrete inputs: the application-password message
carries the superuser path `/su-pw`, the configuration-file message the
HBA path `/hba`. -/
theorem c10_witness :
    VerifyConfiguration demoInfoOpt (okOracle (fun p => p = "/su-pw")) =
      .error (.msg ("application user's password file doesn't exist ("
        ++ demoInfoOpt.PasswordFile ++ ")")) ∧
    VerifyConfiguration demoInfoOpt
        (okOracle (fun p => p = "/su-pw" || p = "/app-pw" || p = "/hba")) =
      .error (.msg ("postgresql config file doesn't exist ("
        ++ demoInfoOpt.HBARulesFile ++ ")")) := by
  constructor
  · exact (c10_error_messages_report_wrong_paths demoInfoOpt _).1 (by decide) (by decide)
  · exact (c10_error_messages_report_wrong_paths demoInfoOpt _).2 (by decide) (by decide)
      (by decide) (Or.inr (by decide)) (by decide) (by decide)

/-- C2 counterexample: the request `invalidInfo` (empty application user)
is rejected by `VerifyConfiguration`, yet `Bootstrap` still invokes
`CreateDataDirectory` on it: validation is not a stage of `Bootstrap`. -/
theorem c2_counterexample :
    VerifyConfiguration invalidInfo (okOracle demoExists) =
      .error (.msg "the name of the application user is empty") ∧
    Stage.createDataDirectory ∈ (Bootstrap invalidInfo demoEnv).1 := by
  constructor <;> decide

/-- C2 (amended): `Bootstrap` performs no validation: on every request and
in every environment its first attempted stage is `CreateDataDirectory`;
acceptance by `VerifyConfiguration` is never consulted, so a rejected
request still reaches the provisioner when `Bootstrap` is called. -/
theorem c2_amended_bootstrap_starts_with_provisioner (info : InitInfo) (env : BootstrapEnv) :
    (Bootstrap info env).1.head? = some Stage.createDataDirectory := by
  rcases h1 : CreateDataDirectory info env.initdbResult with e | fs <;> simp [Bootstrap, h1]
  rcases h2 : env.majorVersionResult with e | v <;> simp [h2]
  rcases h3 : env.startInstanceResult with e | u <;> simp [h3]
  rcases h4 : env.superUserDBResult with e | u <;> simp [h4]
  rcases h5 : (ConfigureApplicationEnvironment info fs env.execRes).2 with e | u <;> simp [h5]
  split <;> simp

/-- C8 counterexample: when major-version detection fails, `Bootstrap`
returns ok but does not start the transient instance and does not
configure the application environment, contrary to the claim. -/
theorem c8_counterexample :
    Bootstrap demoInfo versionFailEnv =
      ([Stage.createDataDirectory, Stage.detectMajorVersion], .ok ()) ∧
    Stage.startInstance ∉ (Bootstrap demoInfo versionFailEnv).1 ∧
    Stage.configureApplicationEnvironment ∉ (Bootstrap demoInfo versionFailEnv).1 := by
  refine ⟨?_, ?_, ?_⟩ <;> decide

/-- C8 (amended): when major-version detection fails after the data
directory has been created, `Bootstrap` returns ok immediately, skipping
the transient instance startup, the application environment configuration
and the replica configuration. -/
theorem c8_amended_detection_failure_skips_rest (info : InitInfo) (env : BootstrapEnv)
    (e : GoError) (fs : FS)
    (hcd : CreateDataDirectory info env.initdbResult = .ok fs)
    (hv : env.majorVersionResult = .error e) :
    Bootstrap info env = ([Stage.createDataDirectory, Stage.detectMajorVersion], .ok ()) := by
  simp [Bootstrap, hcd, hv]

/-- Witness for C8 at concrete inputs. -/
theorem c8_witness :
    Bootstrap demoInfo versionFailEnv =
      ([Stage.createDataDirectory, Stage.detectMajorVersion], .ok ()) :=
  c8_amended_detection_failure_skips_rest demoInfo versionFailEnv
    (.msg "Missing PG_VERSION file") demoCreatedFS rfl rfl

/-- Witness for C2's amended statement at concrete inputs. -/
theorem c2_witness :
    (Bootstrap demoInfo demoEnv).1.head? = some Stage.createDataDirectory :=
  c2_amended_bootstrap_starts_with_provisioner demoInfo demoEnv

/-- Witness for C3 at concrete inputs. -/
theorem c3_witness :
    VerifyConfiguration invalidInfo (okOracle demoExists) =
      (match firstViolatedRule invalidInfo demoExists with
       | none => .ok ()
       | some r => .error (ruleError invalidInfo r)) :=
  c3_verify_configuration_first_violation invalidInfo demoExists

/-- C1: the code contradicts the claim.  With data-directory creation,
major-version detection (13) and instance startup all succeeding, a
failure in obtaining the superuser SQL handle — or, in the second pair of
conjuncts, in configuring the application environment — makes `Bootstrap`
halt the remaining stages but return ok (Go `nil`), swallowing the
stage's error instead of returning it (source: `if err != nil { return
nil }` after `GetSuperUserDB` and after
`ConfigureApplicationEnvironment`). -/
theorem c1_bootstrap_swallows_stage_errors :
    superUserFailEnv.superUserDBResult = .error (.msg "connection refused") ∧
    Bootstrap demoInfo superUserFailEnv =
      ([Stage.createDataDirectory, Stage.detectMajorVersion, Stage.startInstance,
        Stage.getSuperUserDB], .ok ()) ∧
    (ConfigureApplicationEnvironment demoInfo demoCreatedFS appEnvFailEnv.execRes).2 =
      .error (.msg "role already exists") ∧
    Bootstrap demoInfo appEnvFailEnv =
      ([Stage.createDataDirectory, Stage.detectMajorVersion, Stage.startInstance,
        Stage.getSuperUserDB, Stage.configureApplicationEnvironment], .ok ()) := by
  refine ⟨rfl, ?_, ?_, ?_⟩ <;> decide

/-- C4: when the external initialization program succeeds (and the
supplied optional source files exist, the extra-configuration path not
clashing with the instance's access-control file), `CreateDataDirectory`
succeeds and leaves the configuration file equal to its previous content,
then the optional extra configuration (when supplied), then the fixed
archiving stanza; the access-control file keeps its previous content with
the optional rules appended. -/
theorem c4_create_data_directory_appends_stanza (info : InitInfo) (fs : FS)
    (hhba : info.HBARulesFile.length ≠ 0 → (fs info.HBARulesFile).isSome = true)
    (hconf : info.PostgreSQLConfigFile.length ≠ 0 → (fs info.PostgreSQLConfigFile).isSome = true)
    (hsrc : info.PostgreSQLConfigFile ≠ pathJoin info.PgData "pg_hba.conf") :
    ∃ fs2, CreateDataDirectory info (.ok fs) = .ok fs2 ∧
      fs2 (pathJoin info.PgData "postgresql.conf") =
        some ((((fs (pathJoin info.PgData "postgresql.conf")).getD "")
          ++ (if info.PostgreSQLConfigFile.length ≠ 0
              then (fs info.PostgreSQLConfigFile).getD "" else ""))
          ++ archiveStanza) ∧
      (info.HBARulesFile.length ≠ 0 →
        fs2 (pathJoin info.PgData "pg_hba.conf") =
          some (((fs (pathJoin info.PgData "pg_hba.conf")).getD "")
            ++ ((fs info.HBARulesFile).getD ""))) := by
  have hne := pathJoin_hba_ne_conf info.PgData
  by_cases hb : info.HBARulesFile.length = 0 <;>
    by_cases hc : info.PostgreSQLConfigFile.length = 0
  · refine ⟨AppendStringToFile fs (pathJoin info.PgData "postgresql.conf") archiveStanza,
      by simp [CreateDataDirectory, hb, hc], ?_, ?_⟩
    · simp [AppendStringToFile, writeFS, hc]
    · intro h; exact absurd hb h
  · obtain ⟨cconf, hcc⟩ := Option.isSome_iff_exists.mp (hconf hc)
    refine ⟨AppendStringToFile
        (AppendStringToFile fs (pathJoin info.PgData "postgresql.conf") cconf)
        (pathJoin info.PgData "postgresql.conf") archiveStanza,
      by simp [CreateDataDirectory, hb, hc, AppendFile, hcc], ?_, ?_⟩
    · simp [AppendStringToFile, writeFS, hc, hcc]
    · intro h; exact absurd hb h
  · obtain ⟨chba, hcb⟩ := Option.isSome_iff_exists.mp (hhba hb)
    refine ⟨AppendStringToFile
        (AppendStringToFile fs (pathJoin info.PgData "pg_hba.conf") chba)
        (pathJoin info.PgData "postgresql.conf") archiveStanza,
      by simp [CreateDataDirectory, hb, hc, AppendFile, hcb], ?_, ?_⟩
    · simp [AppendStringToFile, writeFS, hc, Ne.symm hne]
    · intro h
      simp [AppendStringToFile, writeFS, hne, hcb]
  · obtain ⟨chba, hcb⟩ := Option.isSome_iff_exists.mp (hhba hb)
    obtain ⟨cconf, hcc⟩ := Option.isSome_iff_exists.mp (hconf hc)
    have hcc1 : (AppendStringToFile fs (pathJoin info.PgData "pg_hba.conf") chba)
        info.PostgreSQLConfigFile = some cconf := by
      simp [AppendStringToFile, writeFS, hsrc, hcc]
    refine ⟨AppendStringToFile
        (AppendStringToFile
          (AppendStringToFile fs (pathJoin info.PgData "pg_hba.conf") chba)
          (pathJoin info.PgData "postgresql.conf") cconf)
        (pathJoin info.PgData "postgresql.conf") archiveStanza,
      by simp [CreateDataDirectory, hb, hc, AppendFile, hcb, hcc1], ?_, ?_⟩
    · simp [AppendStringToFile, writeFS, hc, hcc1, Ne.symm hne, hcc]
    · intro h
      simp [AppendStringToFile, writeFS, hne, hcb, Ne.symm hne]

/-- Witness for C4 at concrete inputs: both optional files supplied. -/
theorem c4_witness :
    ∃ fs2, CreateDataDirectory demoInfoOpt (.ok demoFS) = .ok fs2 ∧
      fs2 (pathJoin demoInfoOpt.PgData "postgresql.conf") =
        some ((((demoFS (pathJoin demoInfoOpt.PgData "postgresql.conf")).getD "")
          ++ (if demoInfoOpt.PostgreSQLConfigFile.length ≠ 0
              then (demoFS demoInfoOpt.PostgreSQLConfigFile).getD "" else ""))
          ++ archiveStanza) ∧
      (demoInfoOpt.HBARulesFile.length ≠ 0 →
        fs2 (pathJoin demoInfoOpt.PgData "pg_hba.conf") =
          some (((demoFS (pathJoin demoInfoOpt.PgData "pg_hba.conf")).getD "")
            ++ ((demoFS demoInfoOpt.HBARulesFile).getD ""))) :=
  c4_create_data_directory_appends_stanza demoInfoOpt demoFS
    (fun _ => by decide) (fun _ => by decide) (by decide)

/-- C5 counterexample: with cluster name `c`, a readable password file and
every statement succeeding, the fourth (last) statement issued quotes the
cluster name as a SQL identifier (`"c"`), not as the SQL literal (`'c'`)
the claim states. -/
theorem c5_counterexample :
    (ConfigureApplicationEnvironment demoInfo demoFS allOk).1.getLast? =
      some "ALTER SYSTEM SET cluster_name TO \"c\"" ∧
    (ConfigureApplicationEnvironment demoInfo demoFS allOk).1.getLast? ≠
      some ("ALTER SYSTEM SET cluster_name TO " ++ QuoteLiteral "c") := by
  constructor <;> decide

/-- C5 (amended): `ConfigureApplicationEnvironment` issues exactly
`CREATE USER`, `ALTER USER … PASSWORD`, `CREATE DATABASE … OWNER`,
`ALTER SYSTEM SET cluster_name TO …` in that order, the user and database
quoted as SQL identifiers, the password quoted as a SQL literal and the
cluster name quoted as a SQL identifier; any step failing (including
reading the password file) aborts the remaining steps and returns the
underlying error. -/
theorem c5_amended_application_environment (info : InitInfo) (fs : FS)
    (execRes : String → Except GoError Unit) (pw : String) (e : GoError) :
    ((∀ s, execRes s = .ok ()) →
      ReadFileFS fs info.ApplicationPasswordFile = .ok pw →
      ConfigureApplicationEnvironment info fs execRes =
        ([appStmt1 info, appStmt2 info pw, appStmt3 info, appStmt4 info], .ok ())) ∧
    (execRes (appStmt1 info) = .error e →
      ConfigureApplicationEnvironment info fs execRes = ([appStmt1 info], .error e)) ∧
    (execRes (appStmt1 info) = .ok () →
      ReadFileFS fs info.ApplicationPasswordFile = .error e →
      ConfigureApplicationEnvironment info fs execRes = ([appStmt1 info], .error e)) ∧
    (execRes (appStmt1 info) = .ok () →
      ReadFileFS fs info.ApplicationPasswordFile = .ok pw →
      execRes (appStmt2 info pw) = .error e →
      ConfigureApplicationEnvironment info fs execRes =
        ([appStmt1 info, appStmt2 info pw], .error e)) ∧
    (execRes (appStmt1 info) = .ok () →
      ReadFileFS fs info.ApplicationPasswordFile = .ok pw →
      execRes (appStmt2 info pw) = .ok () →
      execRes (appStmt3 info) = .error e →
      ConfigureApplicationEnvironment info fs execRes =
        ([appStmt1 info, appStmt2 info pw, appStmt3 info], .error e)) ∧
    (execRes (appStmt1 info) = .ok () →
      ReadFileFS fs info.ApplicationPasswordFile = .ok pw →
      execRes (appStmt2 info pw) = .ok () →
      execRes (appStmt3 info) = .ok () →
      execRes (appStmt4 info) = .error e →
      ConfigureApplicationEnvironment info fs execRes =
        ([appStmt1 info, appStmt2 info pw, appStmt3 info, appStmt4 info], .error e)) := by
  refine ⟨?_, ?_, ?_, ?_, ?_, ?_⟩ <;> intros <;>
    simp_all [ConfigureApplicationEnvironment]

/-- Witness for C5's amended statement at concrete inputs. -/
theorem c5_witness :
    ConfigureApplicationEnvironment demoInfo demoFS allOk =
      ([appStmt1 demoInfo, appStmt2 demoInfo "secret", appStmt3 demoInfo,
        appStmt4 demoInfo], .ok ()) :=
  (c5_amended_application_environment demoInfo demoFS allOk "secret" (.msg "")).1
    (fun _ => rfl) (by decide)

/-- C7: `ConfigureReplica` builds a connection string naming the parent
node as host and the fixed system database `postgres`, issues
`ALTER SYSTEM SET primary_conninfo TO` that string as a SQL literal and
then `ALTER SYSTEM SET recovery_target_timeline TO 'latest'`; a failure
of the first statement prevents the second from being issued. -/
theorem c7_configure_replica_statements (info : InitInfo)
    (execRes : String → Except GoError Unit) (e : GoError) :
    primaryConnInfo info = "host=" ++ info.ParentNode ++ " user=postgres dbname=postgres" ∧
    (execRes (replicaStmt1 info) = .ok () →
      ConfigureReplica info execRes =
        ([replicaStmt1 info, replicaStmt2], execRes replicaStmt2)) ∧
    (execRes (replicaStmt1 info) = .error e →
      ConfigureReplica info execRes = ([replicaStmt1 info], .error e)) := by
  refine ⟨?_, ?_, ?_⟩
  · simp only [primaryConnInfo]
    rw [String.append_assoc]
    rfl
  · intro h1
    simp [ConfigureReplica, h1]
    rcases h2 : execRes replicaStmt2 with e2 | u <;> simp [h2]
  · intro h1
    simp [ConfigureReplica, h1]

/-- Witness for C7 at concrete inputs. -/
theorem c7_witness :
    ConfigureReplica demoInfo allOk = ([replicaStmt1 demoInfo, replicaStmt2], .ok ()) :=
  (c7_configure_replica_statements demoInfo allOk (.msg "")).2.1 rfl

/-- C6 counterexample: major-version detection succeeds with version 12
and the transient instance phase is reached (`startInstance` is in the
trace), yet `ConfigureReplica` is never invoked, because obtaining the
superuser SQL handle failed — contradicting the claim's "invoked exactly
once when the detected major version is ≥ 12". -/
theorem c6_counterexample :
    superUserFailEnv12.majorVersionResult = .ok 12 ∧
    Stage.startInstance ∈ (Bootstrap demoInfo superUserFailEnv12).1 ∧
    (Bootstrap demoInfo superUserFailEnv12).1.count Stage.configureReplica = 0 := by
  refine ⟨rfl, ?_, ?_⟩ <;> decide

/-- C6 (amended): when data-directory creation, major-version detection,
instance startup, obtaining the superuser handle and the application
environment configuration all succeed, `ConfigureReplica` is invoked
exactly once if the detected major version is ≥ 12 and not at all
otherwise; and in any run whatsoever with a detected major version < 12
it is never invoked. -/
theorem c6_amended_replica_version_gate (info : InitInfo) (env : BootstrapEnv)
    (v : Nat) (fs : FS)
    (hcd : CreateDataDirectory info env.initdbResult = .ok fs)
    (hv : env.majorVersionResult = .ok v)
    (hs : env.startInstanceResult = .ok ())
    (hdb : env.superUserDBResult = .ok ())
    (happ : (ConfigureApplicationEnvironment info fs env.execRes).2 = .ok ()) :
    (Bootstrap info env).1.count Stage.configureReplica =
      (if 12 ≤ v then 1 else 0) ∧
    (∀ info2 env2 v2, env2.majorVersionResult = .ok v2 → v2 < 12 →
      (Bootstrap info2 env2).1.count Stage.configureReplica = 0) := by
  constructor
  · simp only [Bootstrap, hcd, hv, hs, hdb, happ]
    split <;> simp [List.count_cons]
  · intro info2 env2 v2 hv2 hlt
    have hnot : ¬ 12 ≤ v2 := by omega
    rcases h1 : CreateDataDirectory info2 env2.initdbResult with e2 | fs0 <;>
      simp [Bootstrap, h1, hv2, hnot, List.count_cons]
    rcases h3 : env2.startInstanceResult with e2 | u <;> simp [h3, List.count_cons]
    rcases h4 : env2.superUserDBResult with e2 | u <;> simp [h4, List.count_cons]
    rcases h5 : (ConfigureApplicationEnvironment info2 fs0 env2.execRes).2 with e2 | u <;>
      simp [h5, List.count_cons]

/-- Witness for C6's amended statement at concrete inputs (version 13). -/
theorem c6_witness :
    (Bootstrap demoInfo demoEnv).1.count Stage.configureReplica =
      (if 12 ≤ 13 then 1 else 0) :=
  (c6_amended_replica_version_gate demoInfo demoEnv 13 demoCreatedFS
    rfl rfl rfl rfl (by decide)).1

/-- C9: when the target check passes and the restore step fails, the
command propagates the restore error unchanged; the data-directory
removal is attempted exactly when the error is a `CloudRestoreError`
classified retriable; and a missing directory during cleanup is ignored
rather than logged as a removal error. -/
theorem c9_restore_cleanup_policy
    (check restoreOutcome : Except Restore.RestoreError Unit)
    (rm : Restore.RemoveOutcome) (e : Restore.RestoreError)
    (hok : check = .ok ()) (hfail : restoreOutcome = .error e) :
    (Restore.restoreSubCommand check restoreOutcome rm).returned = .error e ∧
    (((Restore.restoreSubCommand check restoreOutcome rm).cleanup ≠
        Restore.CleanupAction.skipped) ↔
      (∃ b, Restore.asCloudRestoreError e = some b ∧ b.retriable = true)) ∧
    (rm = .notExist → ∀ s,
      (Restore.restoreSubCommand check restoreOutcome rm).cleanup ≠
        Restore.CleanupAction.removalErrorLogged s) := by
  subst hok hfail
  rcases e with b | s0
  · rcases b with ⟨r⟩
    rcases r <;> rcases rm <;>
      simp [Restore.restoreSubCommand, Restore.cleanupDataDirectoryIfNeeded,
        Restore.asCloudRestoreError]
  · rcases rm <;>
      simp [Restore.restoreSubCommand, Restore.cleanupDataDirectoryIfNeeded,
        Restore.asCloudRestoreError]

/-- Witness for C9 at concrete inputs: a retriable backup-restore failure
propagates unchanged and triggers cleanup. -/
theorem c9_witness :
    (Restore.restoreSubCommand (.ok ()) (.error (.cloudRestore ⟨true⟩)) .removed).returned =
      .error (.cloudRestore ⟨true⟩) ∧
    (Restore.restoreSubCommand (.ok ()) (.error (.cloudRestore ⟨true⟩)) .removed).cleanup ≠
      Restore.CleanupAction.skipped := by
  have h := c9_restore_cleanup_policy (.ok ()) (.error (.cloudRestore ⟨true⟩))
    .removed (.cloudRestore ⟨true⟩) rfl rfl
  exact ⟨h.1, h.2.1.mpr ⟨⟨true⟩, rfl, rfl⟩⟩

end CNPG
